import Mathlib

/-!
Verification of the dieselnoi-course backend core logic: entitlement resolution
(`core/serializers.py`, `core/views.py`, `core/mux_utils.py`), progress tracking,
the badge engine (`core/badge_checker.py`), the referral/fraud engine
(`core/signals.py`, `core/models.py`) and the login throttling state machine
(`core/auth_security.py`), embedded shallowly: database tables are lists of rows,
timestamps are natural numbers, the Django cache is an explicit record with expiries.
-/

namespace Dieselnoi

/-- Subscription status values (`Subscription.STATUS_CHOICES` in `core/models.py`). -/
inductive SubStatus
  | active
  | past_due
  | cancelled
  | trialing
  deriving DecidableEq, Repr

/-- A `Course` row, restricted to the fields the verified logic reads. -/
structure Course where
  id : Nat
  is_published : Bool
  deriving DecidableEq, Repr

/-- A `Lesson` row, restricted to the fields the verified logic reads.
`unlock_date` is a timestamp (`none` = immediately available). -/
structure Lesson where
  id : Nat
  course_id : Nat
  video_url : Option String
  mux_playback_id : Option String
  is_free_preview : Bool
  unlock_date : Option Nat
  deriving DecidableEq, Repr

/-- A `Subscription` row ((user, course) unique in the store). -/
structure Subscription where
  user_id : Nat
  course_id : Nat
  status : SubStatus
  deriving DecidableEq, Repr

/-- A `LessonUnlock` row: an admin override for one (user, lesson) pair. -/
structure LessonUnlock where
  user_id : Nat
  lesson_id : Nat
  deriving DecidableEq, Repr

/-- The ORM query `subscriptions.filter(user=.., course=.., status__in=['active',
'trialing']).exists()`, used identically by `IsSubscriberOrReadOnly` and
`LessonSerializer.to_representation`. -/
def has_active_subscription (subs : List Subscription) (user_id course_id : Nat) : Bool :=
  subs.any fun s =>
    s.user_id == user_id && s.course_id == course_id &&
      (s.status == SubStatus.active || s.status == SubStatus.trialing)

/-- `LessonSerializer._is_lesson_locked` (`core/serializers.py`). -/
def is_lesson_locked (unlocks : List LessonUnlock) (lesson : Lesson) (user_id : Nat)
    (now : Nat) : Bool :=
  if lesson.is_free_preview then false
  else
    match lesson.unlock_date with
    | none => false
    | some d =>
      if unlocks.any fun u => u.user_id == user_id && u.lesson_id == lesson.id then false
      else decide (now < d)

/-- `LessonSerializer.get_is_locked`: unauthenticated requesters are reported unlocked. -/
def get_is_locked (unlocks : List LessonUnlock) (requester : Option Nat) (lesson : Lesson)
    (now : Nat) : Bool :=
  match requester with
  | none => false
  | some uid => is_lesson_locked unlocks lesson uid now

/-- The optional Mux signing-key settings (`MUX_SIGNING_KEY_ID`,
`MUX_SIGNING_KEY_PRIVATE`); passed explicitly where the source reads Django settings. -/
structure MuxSettings where
  mux_signing_key_id : Option String
  mux_signing_key_private : Option String
  deriving DecidableEq, Repr

/-- `generate_mux_jwt_token` (`core/mux_utils.py`): produces a token only when both
signing keys are configured. The JWT encoding itself is opaque crypto; it is modelled
as a tagged string, which is all the claims need. -/
def generate_mux_jwt_token (cfg : MuxSettings) (playback_id : String)
    (expiration_seconds : Nat) : Option String :=
  match cfg.mux_signing_key_id, cfg.mux_signing_key_private with
  | some kid, some _ =>
    some ("jwt." ++ kid ++ "." ++ playback_id ++ "." ++ toString expiration_seconds)
  | _, _ => none

/-- `get_signed_playback_id` (`core/mux_utils.py`): the source returns the playback id
unchanged and never consults the signing configuration (its docstring: the token is
passed separately by the frontend). The settings argument mirrors the ambient Django
settings the function could read; the body ignores it, exactly as the source does. -/
def get_signed_playback_id (cfg : MuxSettings) (playback_id : String)
    (expiration_seconds : Nat) : String :=
  playback_id

/-- The access-relevant fields of the serialized lesson response. -/
structure LessonRepr where
  video_url : Option String
  mux_playback_id : Option String
  is_locked : Bool
  deriving DecidableEq, Repr

/-- `LessonSerializer.to_representation` (`core/serializers.py`), specialised to the
access-relevant fields. `requester = none` models an anonymous request. -/
def to_representation (cfg : MuxSettings) (subs : List Subscription)
    (unlocks : List LessonUnlock) (requester : Option Nat) (now : Nat)
    (lesson : Lesson) : LessonRepr :=
  let data : LessonRepr :=
    { video_url := lesson.video_url
      mux_playback_id := lesson.mux_playback_id
      is_locked := get_is_locked unlocks requester lesson now }
  match requester with
  | some uid =>
    if data.is_locked then
      { data with video_url := none, mux_playback_id := none }
    else
      let has_subscription := has_active_subscription subs uid lesson.course_id
      if !has_subscription && !lesson.is_free_preview then
        { data with video_url := none, mux_playback_id := none }
      else
        match lesson.mux_playback_id with
        | some pid =>
          { data with mux_playback_id := some (get_signed_playback_id cfg pid 7200) }
        | none => data
  | none =>
    if !lesson.is_free_preview then
      { data with video_url := none, mux_playback_id := none }
    else
      match lesson.mux_playback_id with
      | some pid =>
        { data with mux_playback_id := some (get_signed_playback_id cfg pid 7200) }
      | none => data

/-- `IsSubscriberOrReadOnly.has_object_permission` (`core/views.py`) for a `Lesson`. -/
def has_object_permission (subs : List Subscription) (user_id : Nat) (lesson : Lesson) :
    Bool :=
  if lesson.is_free_preview then true
  else has_active_subscription subs user_id lesson.course_id

/-- A settings record with both signing keys configured, for concrete evaluation. -/
def cfgWithKeys : MuxSettings :=
  { mux_signing_key_id := some "signing-key-id"
    mux_signing_key_private := some "signing-key-data" }

/-- A paid (non-preview) lesson with a video, for concrete evaluation. -/
def paidLesson : Lesson :=
  { id := 1, course_id := 1, video_url := none
    mux_playback_id := some "raw-playback-id", is_free_preview := false
    unlock_date := none }

/-- An active subscription of user 7 to course 1, for concrete evaluation. -/
def activeSub : Subscription := { user_id := 7, course_id := 1, status := SubStatus.active }

/-- A free-preview lesson whose unlock date lies in the future, for concrete
evaluation. -/
def freeDripLesson : Lesson :=
  { id := 2, course_id := 1, video_url := none
    mux_playback_id := some "free-playback-id", is_free_preview := true
    unlock_date := some 1000 }

/-- Unfolding of the subscription-existence query into a proposition on the rows. -/
lemma has_active_subscription_iff (subs : List Subscription) (uid cid : Nat) :
    has_active_subscription subs uid cid = true ↔
      ∃ s ∈ subs, s.user_id = uid ∧ s.course_id = cid ∧
        (s.status = SubStatus.active ∨ s.status = SubStatus.trialing) := by
  unfold has_active_subscription
  simp only [List.any_eq_true, Bool.and_eq_true, Bool.or_eq_true, beq_iff_eq]
  constructor
  · rintro ⟨s, hs, ⟨h1, h2⟩, h3⟩
    exact ⟨s, hs, h1, h2, h3⟩
  · rintro ⟨s, hs, h1, h2, h3⟩
    exact ⟨s, hs, ⟨h1, h2⟩, h3⟩

/-- C1 counterexample: with both signing keys configured and an allowed request from a
subscriber, the serialized `mux_playback_id` is the raw playback identifier itself —
not a credential distinct from it, contrary to the claim. -/
theorem c1_counterexample :
    cfgWithKeys.mux_signing_key_id.isSome = true ∧
    cfgWithKeys.mux_signing_key_private.isSome = true ∧
    paidLesson.mux_playback_id = some "raw-playback-id" ∧
    (to_representation cfgWithKeys [activeSub] [] (some 7) 0 paidLesson).mux_playback_id
      = some "raw-playback-id" := by
  exact ⟨rfl, rfl, rfl, rfl⟩

/-- C1 (amended): for every signing configuration, the lesson response either withholds
the playback identifier or carries the raw identifier unchanged; no signed credential
distinct from the raw identifier is ever produced on this path. -/
theorem c1_raw_id_regardless_of_signing (cfg : MuxSettings) (subs : List Subscription)
    (unlocks : List LessonUnlock) (requester : Option Nat) (now : Nat) (lesson : Lesson)
    (pid : String) (hpid : lesson.mux_playback_id = some pid) :
    (to_representation cfg subs unlocks requester now lesson).mux_playback_id = none ∨
    (to_representation cfg subs unlocks requester now lesson).mux_playback_id = some pid := by
  unfold to_representation
  cases requester with
  | none =>
    by_cases hf : lesson.is_free_preview
    · simp [hf, hpid, get_signed_playback_id]
    · simp [hf]
  | some uid =>
    by_cases hl : get_is_locked unlocks (some uid) lesson now
    · simp [hl]
    · by_cases hs : has_active_subscription subs uid lesson.course_id
        <;> by_cases hf : lesson.is_free_preview
        <;> simp [hl, hs, hf, hpid, get_signed_playback_id]

/-- Witness for `c1_raw_id_regardless_of_signing` at a concrete input. -/
theorem c1_raw_id_regardless_of_signing_witness :
    (to_representation cfgWithKeys [activeSub] [] (some 7) 0 paidLesson).mux_playback_id
        = none ∨
    (to_representation cfgWithKeys [activeSub] [] (some 7) 0 paidLesson).mux_playback_id
        = some "raw-playback-id" :=
  c1_raw_id_regardless_of_signing cfgWithKeys [activeSub] [] (some 7) 0 paidLesson
    "raw-playback-id" rfl

/-- C2 counterexample: a free-preview lesson with an unexpired `unlock_date` and no
`LessonUnlock` row is still served its video, to an anonymous requester and to an
authenticated unsubscribed requester alike — the drip exception stated by the claim
never fires. -/
theorem c2_counterexample :
    freeDripLesson.is_free_preview = true ∧
    freeDripLesson.unlock_date = some 1000 ∧ (0 : Nat) < 1000 ∧
    (to_representation cfgWithKeys [] [] none 0 freeDripLesson).mux_playback_id
      = some "free-playback-id" ∧
    (to_representation cfgWithKeys [] [] (some 7) 0 freeDripLesson).mux_playback_id
      = some "free-playback-id" := by
  exact ⟨rfl, rfl, by norm_num, rfl, rfl⟩

/-- C2 (amended): a free-preview lesson's video is visible to every requester —
anonymous or authenticated, subscribed or not — regardless of `unlock_date`, and the
object permission always grants it; free previews are never drip-locked. -/
theorem c2_free_preview_always_visible (cfg : MuxSettings) (subs : List Subscription)
    (unlocks : List LessonUnlock) (requester : Option Nat) (now : Nat) (lesson : Lesson)
    (pid : String) (hfree : lesson.is_free_preview = true)
    (hpid : lesson.mux_playback_id = some pid) :
    (to_representation cfg subs unlocks requester now lesson).mux_playback_id = some pid ∧
    (to_representation cfg subs unlocks requester now lesson).video_url = lesson.video_url ∧
    (∀ uid, is_lesson_locked unlocks lesson uid now = false) ∧
    (∀ uid, has_object_permission subs uid lesson = true) := by
  have hlock : ∀ uid, is_lesson_locked unlocks lesson uid now = false := by
    intro uid; unfold is_lesson_locked; simp [hfree]
  refine ⟨?_, ?_, hlock, ?_⟩
  · unfold to_representation
    cases requester with
    | none => simp [hfree, hpid, get_signed_playback_id]
    | some uid =>
      simp [get_is_locked, hlock uid, hfree, hpid, get_signed_playback_id]
  · unfold to_representation
    cases requester with
    | none => simp [hfree, hpid, get_signed_playback_id]
    | some uid =>
      simp [get_is_locked, hlock uid, hfree, hpid, get_signed_playback_id]
  · intro uid; unfold has_object_permission; simp [hfree]

/-- Witness for `c2_free_preview_always_visible` at a concrete input. -/
theorem c2_free_preview_always_visible_witness :
    (to_representation cfgWithKeys [] [] none 0 freeDripLesson).mux_playback_id
        = some "free-playback-id" ∧
    (to_representation cfgWithKeys [] [] none 0 freeDripLesson).video_url
        = freeDripLesson.video_url ∧
    (∀ uid, is_lesson_locked [] freeDripLesson uid 0 = false) ∧
    (∀ uid, has_object_permission [] uid freeDripLesson = true) :=
  c2_free_preview_always_visible cfgWithKeys [] [] none 0 freeDripLesson
    "free-playback-id" rfl rfl

/-- C3: for an authenticated user and a non-preview, non-drip-locked lesson with a
video, the response exposes the playback id iff an active-or-trialing subscription for
(user, lesson.course) exists; the object permission computes exactly that existence
check, which holds iff some row matches the user, the lesson's own course, and a
status of active or trialing (so cancelled/past_due rows and rows for other courses
never grant access). -/
theorem c3_access_iff_active_subscription (cfg : MuxSettings) (subs : List Subscription)
    (unlocks : List LessonUnlock) (uid now : Nat) (lesson : Lesson) (pid : String)
    (hfree : lesson.is_free_preview = false)
    (hlock : is_lesson_locked unlocks lesson uid now = false)
    (hpid : lesson.mux_playback_id = some pid) :
    ((to_representation cfg subs unlocks (some uid) now lesson).mux_playback_id = some pid
      ↔ has_active_subscription subs uid lesson.course_id = true) ∧
    (has_object_permission subs uid lesson
      = has_active_subscription subs uid lesson.course_id) ∧
    (has_active_subscription subs uid lesson.course_id = true ↔
      ∃ s ∈ subs, s.user_id = uid ∧ s.course_id = lesson.course_id ∧
        (s.status = SubStatus.active ∨ s.status = SubStatus.trialing)) := by
  refine ⟨?_, ?_, has_active_subscription_iff subs uid lesson.course_id⟩
  · unfold to_representation
    by_cases hs : has_active_subscription subs uid lesson.course_id
      <;> simp [get_is_locked, hlock, hs, hfree, hpid, get_signed_playback_id]
  · unfold has_object_permission
    simp [hfree]

/-- Witness for `c3_access_iff_active_subscription` at a concrete input. -/
theorem c3_access_iff_active_subscription_witness :
    ((to_representation cfgWithKeys [activeSub] [] (some 7) 0 paidLesson).mux_playback_id
        = some "raw-playback-id"
      ↔ has_active_subscription [activeSub] 7 paidLesson.course_id = true) ∧
    (has_object_permission [activeSub] 7 paidLesson
      = has_active_subscription [activeSub] 7 paidLesson.course_id) ∧
    (has_active_subscription [activeSub] 7 paidLesson.course_id = true ↔
      ∃ s ∈ [activeSub], s.user_id = 7 ∧ s.course_id = paidLesson.course_id ∧
        (s.status = SubStatus.active ∨ s.status = SubStatus.trialing)) :=
  c3_access_iff_active_subscription cfgWithKeys [activeSub] [] 7 0 paidLesson
    "raw-playback-id" rfl rfl rfl

/-! ## Progress tracker (`LessonProgressViewSet` in `core/views.py`) -/

/-- A `LessonProgress` row ((user, lesson) unique in the store). -/
structure LessonProgress where
  user_id : Nat
  lesson_id : Nat
  is_completed : Bool
  completed_at : Option Nat
  watch_time_seconds : Nat
  last_watched_at : Nat
  deriving DecidableEq, Repr

/-- The row predicate for the (user, lesson) unique key. -/
def matches_key (uid lid : Nat) (r : LessonProgress) : Bool :=
  r.user_id == uid && r.lesson_id == lid

/-- `Lesson.objects.get(id=lesson_id, course__is_published=True)` as an `Option`. -/
def get_published_lesson (courses : List Course) (lessons : List Lesson)
    (lesson_id : Nat) : Option Lesson :=
  lessons.find? fun l =>
    l.id == lesson_id && courses.any fun c => c.id == l.course_id && c.is_published

/-- `LessonProgress.objects.update_or_create` with the `mark_complete` defaults:
`is_completed=True`, `completed_at=now`, `watch_time_seconds=watch_time`;
`last_watched_at` is `auto_now`. At most one row matches the unique (user, lesson)
key, so mapping over matching rows models updating the fetched row. -/
def update_or_create_mark_complete (rows : List LessonProgress) (uid lid : Nat)
    (watch_time now : Nat) : List LessonProgress :=
  if rows.any (matches_key uid lid) then
    rows.map fun r =>
      if matches_key uid lid r then
        { r with is_completed := true, completed_at := some now
                 watch_time_seconds := watch_time, last_watched_at := now }
      else r
  else
    rows ++ [{ user_id := uid, lesson_id := lid, is_completed := true
               completed_at := some now, watch_time_seconds := watch_time
               last_watched_at := now }]

/-- `LessonProgress.objects.update_or_create` with the `update_watch_time` defaults:
only `watch_time_seconds`; a freshly created row keeps the model defaults
(`is_completed=False`, `completed_at=None`). -/
def update_or_create_watch_time (rows : List LessonProgress) (uid lid : Nat)
    (watch_time now : Nat) : List LessonProgress :=
  if rows.any (matches_key uid lid) then
    rows.map fun r =>
      if matches_key uid lid r then
        { r with watch_time_seconds := watch_time, last_watched_at := now }
      else r
  else
    rows ++ [{ user_id := uid, lesson_id := lid, is_completed := false
               completed_at := none, watch_time_seconds := watch_time
               last_watched_at := now }]

/-- Outcomes of the two progress endpoints. `missing_lesson_id` models the HTTP 400
(`lesson_id` absent or falsy), `lesson_not_found` the HTTP 404 'Lesson not found'. -/
inductive ProgressResult
  | missing_lesson_id
  | lesson_not_found
  | ok
  deriving DecidableEq, Repr

/-- `LessonProgressViewSet.mark_complete` (`core/views.py`). `lesson_id = none` models
an absent field; a `0` id is falsy in Python and also yields the 400 branch. The badge
check the source runs afterwards does not touch `LessonProgress` rows and is verified
separately. -/
def mark_complete (courses : List Course) (lessons : List Lesson)
    (rows : List LessonProgress) (uid : Nat) (lesson_id : Option Nat)
    (watch_time now : Nat) : ProgressResult × List LessonProgress :=
  match lesson_id with
  | none => (ProgressResult.missing_lesson_id, rows)
  | some lid =>
    if lid == 0 then (ProgressResult.missing_lesson_id, rows)
    else
      match get_published_lesson courses lessons lid with
      | none => (ProgressResult.lesson_not_found, rows)
      | some lesson =>
        (ProgressResult.ok, update_or_create_mark_complete rows uid lesson.id watch_time now)

/-- `LessonProgressViewSet.update_watch_time` (`core/views.py`). -/
def update_watch_time (courses : List Course) (lessons : List Lesson)
    (rows : List LessonProgress) (uid : Nat) (lesson_id : Option Nat)
    (watch_time now : Nat) : ProgressResult × List LessonProgress :=
  match lesson_id with
  | none => (ProgressResult.missing_lesson_id, rows)
  | some lid =>
    if lid == 0 then (ProgressResult.missing_lesson_id, rows)
    else
      match get_published_lesson courses lessons lid with
      | none => (ProgressResult.lesson_not_found, rows)
      | some lesson =>
        (ProgressResult.ok, update_or_create_watch_time rows uid lesson.id watch_time now)

/-- After the `mark_complete` upsert, the (user, lesson) key holds exactly the one
just-written row, provided the store respected the unique constraint beforehand. -/
lemma filter_after_mark_upsert (rows : List LessonProgress) (uid lid w t : Nat)
    (hinv : (rows.filter (matches_key uid lid)).length ≤ 1) :
    (update_or_create_mark_complete rows uid lid w t).filter (matches_key uid lid)
      = [{ user_id := uid, lesson_id := lid, is_completed := true
           completed_at := some t, watch_time_seconds := w, last_watched_at := t }] := by
  unfold update_or_create_mark_complete
  by_cases hany : rows.any (matches_key uid lid)
  · simp only [hany, if_true]
    induction rows with
    | nil => simp at hany
    | cons r rs ih =>
      by_cases hr : matches_key uid lid r
      · have hkey : r.user_id = uid ∧ r.lesson_id = lid := by
          simpa [matches_key] using hr
        have htail : rs.filter (matches_key uid lid) = [] := by
          have := hinv
          rw [List.filter_cons_of_pos hr] at this
          simp only [List.length_cons] at this
          exact List.length_eq_zero.mp (Nat.le_zero.mp (Nat.le_of_succ_le_succ this))
        have htail2 : (rs.map fun r' =>
            if matches_key uid lid r' then
              { r' with is_completed := true, completed_at := some t
                        watch_time_seconds := w, last_watched_at := t }
            else r').filter (matches_key uid lid) = [] := by
          rw [List.filter_eq_nil] at htail ⊢
          intro a ha
          rcases List.mem_map.mp ha with ⟨b, hb, hba⟩
          have hbneg := htail b hb
          simp only [Bool.not_eq_true] at hbneg
          rw [if_neg (by simp [hbneg])] at hba
          subst hba
          simpa using hbneg
        simp only [List.map_cons, if_pos hr]
        rw [List.filter_cons_of_pos (by simp [matches_key, hkey.1, hkey.2]), htail2]
        simp [hkey.1, hkey.2]
      · have hany' : rs.any (matches_key uid lid) = true := by
          rcases List.any_eq_true.mp hany with ⟨a, ha, hpa⟩
          rcases List.mem_cons.mp ha with h | h
          · exact absurd (h ▸ hpa) (by simpa using hr)
          · exact List.any_eq_true.mpr ⟨a, h, hpa⟩
        have hinv' : (rs.filter (matches_key uid lid)).length ≤ 1 := by
          rw [List.filter_cons_of_neg (by simpa using hr)] at hinv
          exact hinv
        have := ih hinv' hany'
        simp only [List.map_cons, if_neg hr]
        rw [List.filter_cons_of_neg (by simpa using hr)]
        exact this
  · simp only [hany, if_false, Bool.false_eq_true]
    rw [List.filter_append]
    have h0 : rows.filter (matches_key uid lid) = [] := by
      rw [List.filter_eq_nil]
      intro a ha
      simp only [Bool.not_eq_true]
      by_contra hcon
      exact hany (List.any_eq_true.mpr ⟨a, ha, by simpa using hcon⟩)
    rw [h0]
    simp [matches_key]

/-- The `mark_complete` upsert preserves the unique-key invariant. -/
lemma filter_after_mark_upsert_len (rows : List LessonProgress) (uid lid w t : Nat)
    (hinv : (rows.filter (matches_key uid lid)).length ≤ 1) :
    ((update_or_create_mark_complete rows uid lid w t).filter
      (matches_key uid lid)).length ≤ 1 := by
  rw [filter_after_mark_upsert rows uid lid w t hinv]
  simp

/-- C6: two successive `mark_complete` calls for the same (user, lesson) with different
watch times leave exactly one `LessonProgress` row for that key, completed, with the
watch time and completion timestamp of the second call — a last-write-wins upsert,
not an accumulation. -/
theorem c6_mark_complete_idempotent_upsert (courses : List Course)
    (lessons : List Lesson) (rows : List LessonProgress) (uid lid w1 w2 t1 t2 : Nat)
    (h0 : lid ≠ 0) (lesson : Lesson)
    (hfound : get_published_lesson courses lessons lid = some lesson)
    (hinv : (rows.filter (matches_key uid lid)).length ≤ 1) :
    ((mark_complete courses lessons
        (mark_complete courses lessons rows uid (some lid) w1 t1).2
        uid (some lid) w2 t2).2).filter (matches_key uid lid)
      = [{ user_id := uid, lesson_id := lid, is_completed := true
           completed_at := some t2, watch_time_seconds := w2, last_watched_at := t2 }] := by
  have hid : lesson.id = lid := by
    have := List.find?_some hfound
    simp only [Bool.and_eq_true, beq_iff_eq] at this
    exact this.1
  have hne : (lid == 0) = false := by simpa using h0
  simp only [mark_complete, hne, Bool.false_eq_true, if_false, hfound, hid]
  exact filter_after_mark_upsert _ uid lid w2 t2
    (filter_after_mark_upsert_len rows uid lid w1 t1 hinv)

/-- A published course, a lesson in it, and a prior progress row, for witnesses. -/
def pubCourse : Course := { id := 1, is_published := true }

/-- A lesson of `pubCourse` used by the progress witnesses. -/
def pubLesson : Lesson :=
  { id := 3, course_id := 1, video_url := none, mux_playback_id := none
    is_free_preview := false, unlock_date := none }

/-- A pre-existing progress row of user 7 on `pubLesson`, for witnesses. -/
def priorRow : LessonProgress :=
  { user_id := 7, lesson_id := 3, is_completed := false, completed_at := none
    watch_time_seconds := 11, last_watched_at := 5 }

/-- Witness for `c6_mark_complete_idempotent_upsert` at a concrete input. -/
theorem c6_mark_complete_idempotent_upsert_witness :
    ((mark_complete [pubCourse] [pubLesson]
        (mark_complete [pubCourse] [pubLesson] [priorRow] 7 (some 3) 100 50).2
        7 (some 3) 200 60).2).filter (matches_key 7 3)
      = [{ user_id := 7, lesson_id := 3, is_completed := true
           completed_at := some 60, watch_time_seconds := 200, last_watched_at := 60 }] :=
  c6_mark_complete_idempotent_upsert [pubCourse] [pubLesson] [priorRow] 7 3 100 200 50 60
    (by decide) pubLesson (by decide) (by decide)

/-- C10: when `lesson_id` names no lesson of a published course, both progress
endpoints answer 'Lesson not found' and leave the `LessonProgress` table untouched,
whatever rows (including prior progress) it held. -/
theorem c10_lesson_not_found_state_unchanged (courses : List Course)
    (lessons : List Lesson) (rows : List LessonProgress) (uid lid w t : Nat)
    (h0 : lid ≠ 0)
    (hmiss : get_published_lesson courses lessons lid = none) :
    mark_complete courses lessons rows uid (some lid) w t
        = (ProgressResult.lesson_not_found, rows) ∧
    update_watch_time courses lessons rows uid (some lid) w t
        = (ProgressResult.lesson_not_found, rows) := by
  have hne : (lid == 0) = false := by simpa using h0
  constructor
  · simp [mark_complete, hne, hmiss]
  · simp [update_watch_time, hne, hmiss]

/-- Witness for `c10_lesson_not_found_state_unchanged`: id 99 names no published
lesson, and the caller already holds progress rows. -/
theorem c10_lesson_not_found_state_unchanged_witness :
    mark_complete [pubCourse] [pubLesson] [priorRow] 7 (some 99) 100 50
        = (ProgressResult.lesson_not_found, [priorRow]) ∧
    update_watch_time [pubCourse] [pubLesson] [priorRow] 7 (some 99) 100 50
        = (ProgressResult.lesson_not_found, [priorRow]) :=
  c10_lesson_not_found_state_unchanged [pubCourse] [pubLesson] [priorRow] 7 99 100 50
    (by decide) (by decide)

/-- One entry of the `course_progress` response. Python float arithmetic and
`round(x, 1)` are modelled exactly over ℚ; C9 does not depend on the float tie rule. -/
structure CourseProgressEntry where
  course_id : Nat
  total_lessons : Nat
  completed_lessons : Nat
  completion_percentage : ℚ
  deriving DecidableEq, Repr

/-- `round(x, 1)` on the percentage, modelled as half-up rounding to one decimal. -/
def round1 (x : ℚ) : ℚ := (⌊x * 10 + 1 / 2⌋ : ℚ) / 10

/-- The `total_lessons` aggregate annotated on a subscribed course. -/
def total_lessons_of (lessons : List Lesson) (course_id : Nat) : Nat :=
  (lessons.filter fun l => l.course_id == course_id).length

/-- The `completed_lessons` aggregate: the user's completed progress rows joined to
the course's lessons. -/
def completed_lessons_of (lessons : List Lesson) (progress : List LessonProgress)
    (uid course_id : Nat) : Nat :=
  (progress.filter fun p =>
    p.user_id == uid && p.is_completed &&
      lessons.any fun l => l.id == p.lesson_id && l.course_id == course_id).length

/-- `LessonProgressViewSet.course_progress` (`core/views.py`): one entry per course the
user holds an active/trialing subscription to; `completion_percentage` is
`completed / total * 100` guarded by `if total > 0`, then rounded to one decimal. -/
def course_progress (courses : List Course) (lessons : List Lesson)
    (subs : List Subscription) (progress : List LessonProgress) (uid : Nat) :
    List CourseProgressEntry :=
  (courses.filter fun c => has_active_subscription subs uid c.id).map fun c =>
    let total := total_lessons_of lessons c.id
    let completed := completed_lessons_of lessons progress uid c.id
    { course_id := c.id
      total_lessons := total
      completed_lessons := completed
      completion_percentage :=
        round1 (if 0 < total then (completed : ℚ) / (total : ℚ) * 100 else 0) }

/-- C9: every course the user holds an active-or-trialing subscription to yields an
entry carrying its completed and total lesson counts, and every entry of a course with
zero lessons reports a 0 percentage instead of an error (the division is guarded). -/
theorem c9_course_progress_counts_and_zero_guard (courses : List Course)
    (lessons : List Lesson) (subs : List Subscription) (progress : List LessonProgress)
    (uid : Nat) (c : Course) (hc : c ∈ courses)
    (hsub : has_active_subscription subs uid c.id = true) :
    (∃ e ∈ course_progress courses lessons subs progress uid,
      e.course_id = c.id ∧
      e.total_lessons = total_lessons_of lessons c.id ∧
      e.completed_lessons = completed_lessons_of lessons progress uid c.id) ∧
    (∀ e ∈ course_progress courses lessons subs progress uid,
      e.total_lessons = 0 → e.completion_percentage = 0) := by
  constructor
  · refine ⟨_, List.mem_map_of_mem _ (List.mem_filter.mpr ⟨hc, hsub⟩), rfl, rfl, rfl⟩
  · intro e he h0
    rcases List.mem_map.mp he with ⟨c', _, hce⟩
    subst hce
    simp only at h0
    simp only [h0, lt_irrefl, if_false]
    norm_num [round1]

/-- Data for the C9 witness: user 7 is subscribed to `pubCourse` (which has one
lesson) and to course 2, which has no lessons at all. -/
def emptyCourse : Course := { id := 2, is_published := true }

/-- An active subscription of user 7 to the lessonless course 2. -/
def emptySub : Subscription := { user_id := 7, course_id := 2, status := SubStatus.active }

/-- Witness for `c9_course_progress_counts_and_zero_guard` at a concrete input: the
subscribed course has zero lessons, and the percentage is 0 rather than an error. -/
theorem c9_course_progress_counts_and_zero_guard_witness :
    (∃ e ∈ course_progress [pubCourse, emptyCourse] [pubLesson] [emptySub] [priorRow] 7,
      e.course_id = emptyCourse.id ∧
      e.total_lessons = total_lessons_of [pubLesson] emptyCourse.id ∧
      e.completed_lessons = completed_lessons_of [pubLesson] [priorRow] 7 emptyCourse.id) ∧
    (∀ e ∈ course_progress [pubCourse, emptyCourse] [pubLesson] [emptySub] [priorRow] 7,
      e.total_lessons = 0 → e.completion_percentage = 0) :=
  c9_course_progress_counts_and_zero_guard [pubCourse, emptyCourse] [pubLesson] [emptySub]
    [priorRow] 7 emptyCourse (by decide) (by decide)

/-! ## Auth/session guard (`core/auth_security.py`, `LoginView` in `core/views.py`) -/

/-- `LoginAttemptTracker.MAX_ATTEMPTS`. -/
def MAX_ATTEMPTS : Nat := 15

/-- `LoginAttemptTracker.LOCKOUT_DURATION` (seconds). -/
def LOCKOUT_DURATION : Nat := 900

/-- `LoginAttemptTracker.ATTEMPT_EXPIRY` (seconds). -/
def ATTEMPT_EXPIRY : Nat := 3600

/-- `LoginAttemptTracker.DELAY_THRESHOLDS`, already in the sorted order the source
iterates them in. -/
def DELAY_THRESHOLDS : List (Nat × Nat) := [(3, 2), (5, 5), (7, 10), (10, 30)]

/-- One cache entry: the stored counter value and its absolute expiry time. -/
structure CacheEntry where
  value : Nat
  expires_at : Nat
  deriving DecidableEq, Repr

/-- The slice of the short-lived cache backing `LoginAttemptTracker` for one
(username, ip) pair: the per-username counter, the per-IP counter, and the lockout
marker (whose stored value is a timestamp string in the source; only the stored
time and the expiry matter). -/
structure AuthCache where
  user_attempts : Option CacheEntry
  ip_attempts : Option CacheEntry
  lockout : Option CacheEntry
  deriving DecidableEq, Repr

/-- `cache.get(key, 0)` at time `now`: an expired entry reads as the default 0. -/
def cache_get_count (e : Option CacheEntry) (now : Nat) : Nat :=
  match e with
  | none => 0
  | some entry => if now < entry.expires_at then entry.value else 0

/-- `LoginAttemptTracker.record_failed_attempt`: bump both counters with a fresh
1-hour expiry, and set the 900-second lockout marker once the username counter
reaches `MAX_ATTEMPTS`. -/
def record_failed_attempt (st : AuthCache) (now : Nat) : AuthCache :=
  let user_attempts := cache_get_count st.user_attempts now
  let st1 := { st with user_attempts := some ⟨user_attempts + 1, now + ATTEMPT_EXPIRY⟩ }
  let ip_attempts := cache_get_count st.ip_attempts now
  let st2 := { st1 with ip_attempts := some ⟨ip_attempts + 1, now + ATTEMPT_EXPIRY⟩ }
  if MAX_ATTEMPTS ≤ user_attempts + 1 then
    { st2 with lockout := some ⟨now, now + LOCKOUT_DURATION⟩ }
  else st2

/-- `LoginAttemptTracker.clear_attempts`: delete all three keys. -/
def clear_attempts (st : AuthCache) : AuthCache :=
  let st1 := { st with user_attempts := none }
  let st2 := { st1 with ip_attempts := none }
  { st2 with lockout := none }

/-- `LoginAttemptTracker.get_attempt_count`. -/
def get_attempt_count (st : AuthCache) (now : Nat) : Nat × Nat :=
  (cache_get_count st.user_attempts now, cache_get_count st.ip_attempts now)

/-- `LoginAttemptTracker.is_locked_out`: `(is_locked, seconds_remaining)`. An expired
marker reads as absent (`cache.get` returns `None`); the source's defensive
delete-on-nonpositive-ttl branch is unreachable because the marker and its ttl expire
together. -/
def is_locked_out (st : AuthCache) (now : Nat) : Bool × Option Nat :=
  match st.lockout with
  | none => (false, none)
  | some entry =>
    if now < entry.expires_at then (true, some (entry.expires_at - now))
    else (false, none)

/-- `LoginAttemptTracker.get_required_delay`: fold the sorted threshold table, keeping
the delay of the highest threshold not exceeding `max(user, ip)` attempts. -/
def get_required_delay (st : AuthCache) (now : Nat) : Nat :=
  let counts := get_attempt_count st now
  let max_attempts := max counts.1 counts.2
  DELAY_THRESHOLDS.foldl
    (fun delay td => if td.1 ≤ max_attempts then td.2 else delay) 0

/-- Outcomes of `LoginView.post`. -/
inductive LoginResult
  | missing_fields
  | locked_out (seconds_remaining : Nat)
  | requires_2fa
  | login_ok
  | invalid_credentials (attempts_remaining : Nat)
  deriving DecidableEq, Repr

/-- `LoginView.post` (`core/views.py`), for one (username, ip) pair. Returns the
response, the cache state afterwards, whether `authenticate` was invoked against the
password store, and the server-side delay applied in seconds. `attempts_remaining`
is `MAX_ATTEMPTS - max_attempts` clamped at 0, as in the source
(`max(0, attempts_remaining)`). -/
def login_post (st : AuthCache) (now : Nat) (has_username has_password : Bool)
    (password_correct : Bool) (has_2fa : Bool) :
    LoginResult × AuthCache × Bool × Nat :=
  if !has_username || !has_password then (LoginResult.missing_fields, st, false, 0)
  else
    let lock := is_locked_out st now
    if lock.1 then
      -- locked: answer with the remaining seconds, never reaching `authenticate`
      (LoginResult.locked_out (lock.2.getD 0), st, false, 0)
    else if password_correct then
      let st1 := clear_attempts st
      if has_2fa then (LoginResult.requires_2fa, st1, true, 0)
      else (LoginResult.login_ok, st1, true, 0)
    else
      let st1 := record_failed_attempt st now
      let counts := get_attempt_count st1 now
      let max_attempts := max counts.1 counts.2
      let delay := get_required_delay st1 now
      (LoginResult.invalid_credentials (MAX_ATTEMPTS - max_attempts), st1, true, delay)

/-- C5: (i) a failed attempt that brings the username counter to 15 sets the lockout
marker for exactly 900 seconds; (ii) while the marker is alive, every login attempt —
the password-correct flag is arbitrary — returns the lockout error with the remaining
seconds, leaves the whole cache state (counters and lockout expiry) unchanged, does not
invoke `authenticate`, and applies no delay. -/
theorem c5_lockout_rejects_without_authenticating (st : AuthCache) (now : Nat)
    (password_correct has_2fa : Bool) (entry : CacheEntry)
    (hlock : st.lockout = some entry) (halive : now < entry.expires_at)
    (st2 : AuthCache) (t2 : Nat)
    (h14 : 14 ≤ cache_get_count st2.user_attempts t2) :
    login_post st now true true password_correct has_2fa
        = (LoginResult.locked_out (entry.expires_at - now), st, false, 0) ∧
    (record_failed_attempt st2 t2).lockout = some ⟨t2, t2 + 900⟩ := by
  constructor
  · simp [login_post, is_locked_out, hlock, halive]
  · have : MAX_ATTEMPTS ≤ cache_get_count st2.user_attempts t2 + 1 := by
      simp only [MAX_ATTEMPTS]; omega
    simp [record_failed_attempt, this, LOCKOUT_DURATION]

/-- A cache state for the C5 witness: 15 recorded failures for the username inside the
window, lockout marker set at time 100 and alive until 1000. -/
def lockedState : AuthCache :=
  { user_attempts := some ⟨15, 3700⟩
    ip_attempts := some ⟨15, 3700⟩
    lockout := some ⟨100, 1000⟩ }

/-- A cache state one failure short of lockout at time 0, for the C5 witness. -/
def fourteenState : AuthCache :=
  { user_attempts := some ⟨14, 3600⟩
    ip_attempts := some ⟨14, 3600⟩
    lockout := none }

/-- Witness for `c5_lockout_rejects_without_authenticating` at concrete inputs: a
correct-password attempt at time 400 against the locked state is rejected with the
600 remaining seconds, and the 15th failure at time 0 locks until 900. -/
theorem c5_lockout_rejects_without_authenticating_witness :
    login_post lockedState 400 true true true false
        = (LoginResult.locked_out 600, lockedState, false, 0) ∧
    (record_failed_attempt fourteenState 0).lockout = some ⟨0, 900⟩ :=
  c5_lockout_rejects_without_authenticating lockedState 400 true false ⟨100, 1000⟩
    rfl (by norm_num) fourteenState 0 (by norm_num [cache_get_count, fourteenState])

/-! ## Referral / fraud engine (`core/signals.py`, `core/models.py`) -/

/-- `Referral.STATUS_CHOICES`. -/
inductive RefStatus
  | clicked
  | signed_up
  | converted
  | rewarded
  deriving DecidableEq, Repr

/-- `ReferralFraudCheck.STATUS_CHOICES`. -/
inductive FraudStatus
  | pending
  | approved
  | rejected
  deriving DecidableEq, Repr

/-- A `User` row restricted to what the fraud scorer reads. -/
structure UserRow where
  id : Nat
  email : String
  deriving DecidableEq, Repr

/-- A `ReferralCode` row (one per user, code unique). -/
structure ReferralCodeRow where
  user_id : Nat
  code : String
  deriving DecidableEq, Repr

/-- A `Referral` row. -/
structure ReferralRow where
  id : Nat
  referrer_id : Nat
  referee_id : Option Nat
  code_used : String
  status : RefStatus
  ip_address : Option String
  created_at : Nat
  first_subscription_at : Option Nat
  deriving DecidableEq, Repr

/-- A `ReferralFraudCheck` row (`referral` one-to-one). -/
structure FraudCheckRow where
  referral_id : Nat
  same_ip : Bool
  rapid_signup : Bool
  disposable_email : Bool
  fraud_score : Nat
  status : FraudStatus
  deriving DecidableEq, Repr

/-- A `ReferralCredit` row (`referral` one-to-one; amount is the fixed 10.00). -/
structure CreditRow where
  referral_id : Nat
  user_id : Nat
  amount : ℚ
  expires_at : Nat
  used : Bool
  deriving DecidableEq, Repr

/-- The slice of the entity store the referral engine touches. -/
structure ReferralDb where
  users : List UserRow
  codes : List ReferralCodeRow
  referrals : List ReferralRow
  fraud_checks : List FraudCheckRow
  credits : List CreditRow
  deriving DecidableEq, Repr

/-- Save a mutation of the referral row with the given id. -/
def update_referral (db : ReferralDb) (rid : Nat) (f : ReferralRow → ReferralRow) :
    ReferralDb :=
  { db with referrals := db.referrals.map fun x => if x.id == rid then f x else x }

/-- Save a mutation of the fraud-check row keyed by the given referral id. -/
def update_fraud_check (db : ReferralDb) (rid : Nat)
    (f : FraudCheckRow → FraudCheckRow) : ReferralDb :=
  { db with fraud_checks := db.fraud_checks.map fun fc =>
      if fc.referral_id == rid then f fc else fc }

/-- The fixed disposable-domain denylist of `calculate_fraud_score`. -/
def DISPOSABLE_DOMAINS : List String :=
  ["tempmail.com", "guerrillamail.com", "mailinator.com", "10minutemail.com"]

/-- `email.split('@')[1] if '@' in email else ''`. -/
def email_domain (email : String) : String :=
  match email.splitOn "@" with
  | _ :: d :: _ => d
  | _ => ""

/-- `ReferralFraudCheck.auto_review` (`core/models.py`): approve below 20, reject
above 50, otherwise leave pending for manual review. -/
def auto_review_status (fraud_score : Nat) : FraudStatus :=
  if fraud_score < 20 then FraudStatus.approved
  else if 50 < fraud_score then FraudStatus.rejected
  else FraudStatus.pending

/-- The same-IP query of `calculate_fraud_score`: other referral rows whose referrer
owns the clicked code and which share the click's IP. -/
def same_ip_referral_count (db : ReferralDb) (r : ReferralRow) (ip : String) : Nat :=
  (db.referrals.filter fun x =>
    (db.codes.any fun cr => cr.user_id == x.referrer_id && cr.code == r.code_used)
      && x.ip_address == some ip && x.id != r.id).length

/-- The rapid-signup query of `calculate_fraud_score`: referral rows generated by the
referrer in the trailing 24 hours. -/
def recent_referral_count (db : ReferralDb) (now : Nat) (r : ReferralRow) : Nat :=
  (db.referrals.filter fun x =>
    x.referrer_id == r.referrer_id && decide (now - 86400 ≤ x.created_at)).length

/-- The referee's email, through the referee foreign key. -/
def referee_email (db : ReferralDb) (r : ReferralRow) : Option String :=
  r.referee_id.bind fun rid =>
    (db.users.find? fun u => u.id == rid).map fun u => u.email

/-- The first branch condition of `calculate_fraud_score`: an IP is recorded and some
other referral on the same code shares it (+30). -/
def signal_same_ip (db : ReferralDb) (r : ReferralRow) : Bool :=
  match r.ip_address with
  | none => false
  | some ip => decide (0 < same_ip_referral_count db r ip)

/-- The second branch condition: more than 5 referrals by the referrer in 24h (+25). -/
def signal_rapid_signup (db : ReferralDb) (now : Nat) (r : ReferralRow) : Bool :=
  decide (5 < recent_referral_count db now r)

/-- The third branch condition: the referee exists and their email domain is on the
denylist (+40). -/
def signal_disposable_email (db : ReferralDb) (r : ReferralRow) : Bool :=
  match referee_email db r with
  | none => false
  | some email => DISPOSABLE_DOMAINS.contains (email_domain email)

/-- `calculate_fraud_score` (`core/signals.py`): starts at 0; each matched signal adds
its weight and stamps its flag on the fraud-check row (which the caller created just
before); the result is capped at 100. Returns the score and the store with the flag
writes applied. -/
def calculate_fraud_score (db : ReferralDb) (now : Nat) (r : ReferralRow) :
    Nat × ReferralDb :=
  let score1 : Nat := if signal_same_ip db r then 30 else 0
  let db1 := if signal_same_ip db r then
      update_fraud_check db r.id fun fc => { fc with same_ip := true }
    else db
  let score2 := score1 + (if signal_rapid_signup db1 now r then 25 else 0)
  let db2 := if signal_rapid_signup db1 now r then
      update_fraud_check db1 r.id fun fc => { fc with rapid_signup := true }
    else db1
  let score3 := score2 + (if signal_disposable_email db2 r then 40 else 0)
  let db3 := if signal_disposable_email db2 r then
      update_fraud_check db2 r.id fun fc => { fc with disposable_email := true }
    else db2
  (min score3 100, db3)

/-- The credit block of `track_referral_conversion`: only on an approved fraud check,
get-or-create the one credit for the referral (amount 10.00, expiring 365 days out)
and advance the referral to rewarded. -/
def issue_credit_and_reward (db : ReferralDb) (now : Nat) (referral : ReferralRow)
    (fraud_status : FraudStatus) : ReferralDb :=
  if fraud_status == FraudStatus.approved then
    let db1 :=
      if db.credits.any fun cr => cr.referral_id == referral.id then db
      else { db with credits := db.credits ++
        [{ referral_id := referral.id, user_id := referral.referrer_id
           amount := 10, expires_at := now + 31536000, used := false }] }
    update_referral db1 referral.id fun x => { x with status := RefStatus.rewarded }
  else db

/-- `track_referral_conversion` (`core/signals.py`), fired on a newly created active
subscription of `sub_user_id`: advance the referee's open referral to converted,
get-or-create the fraud check (scoring and auto-reviewing it only when newly
created), and issue the credit only on approval. Email side effects are out of
scope. -/
def track_referral_conversion (db : ReferralDb) (now : Nat) (sub_user_id : Nat)
    (created : Bool) (sub_status : SubStatus) : ReferralDb :=
  if created && sub_status == SubStatus.active then
    match db.referrals.find? fun x => x.referee_id == some sub_user_id &&
        (x.status == RefStatus.clicked || x.status == RefStatus.signed_up) with
    | none => db
    | some referral =>
      let db1 := update_referral db referral.id fun x =>
        { x with status := RefStatus.converted, first_subscription_at := some now }
      match db1.fraud_checks.find? fun fc => fc.referral_id == referral.id with
      | some fc =>
        -- fraud_created = False: the stored status gates the credit
        issue_credit_and_reward db1 now referral fc.status
      | none =>
        let db2 := { db1 with fraud_checks := db1.fraud_checks ++
          [{ referral_id := referral.id, same_ip := false, rapid_signup := false
             disposable_email := false, fraud_score := 0
             status := FraudStatus.pending }] }
        let scored := calculate_fraud_score db2 now referral
        let db3 := update_fraud_check scored.2 referral.id fun fc =>
          { fc with fraud_score := scored.1, status := auto_review_status scored.1 }
        issue_credit_and_reward db3 now referral (auto_review_status scored.1)
  else db

/-- Rows in the `ReferralCredit` table for one referral. -/
def credit_count (db : ReferralDb) (rid : Nat) : Nat :=
  (db.credits.filter fun cr => cr.referral_id == rid).length

/-- Rows in the `ReferralFraudCheck` table for one referral. -/
def fraud_check_count (db : ReferralDb) (rid : Nat) : Nat :=
  (db.fraud_checks.filter fun fc => fc.referral_id == rid).length

/-- The non-key fields a handler may write on a fraud-check row (flags, score,
status); the one-to-one referral key itself is never rewritten. -/
structure FraudFieldWrites where
  same_ip : Option Bool
  rapid_signup : Option Bool
  disposable_email : Option Bool
  fraud_score : Option Nat
  status : Option FraudStatus

/-- Apply a set of non-key field writes to a fraud-check row. -/
def apply_fraud_writes (w : FraudFieldWrites) (fc : FraudCheckRow) : FraudCheckRow :=
  { referral_id := fc.referral_id
    same_ip := w.same_ip.getD fc.same_ip
    rapid_signup := w.rapid_signup.getD fc.rapid_signup
    disposable_email := w.disposable_email.getD fc.disposable_email
    fraud_score := w.fraud_score.getD fc.fraud_score
    status := w.status.getD fc.status }

/-- The atomic store operations a run of the conversion handler performs, at the
granularity the store makes atomic (each get-or-create is one unique-constraint-backed
operation, per the concurrency model). Any interleaving of two concurrent handler runs
is some sequence of these. -/
inductive HandlerOp
  | mark_converted (rid now : Nat)
  | get_or_create_fraud_check (rid : Nat)
  | update_fraud_fields (rid : Nat) (w : FraudFieldWrites)
  | get_or_create_credit (rid uid now : Nat)
  | mark_rewarded (rid : Nat)

/-- Effect of one atomic operation on the store. -/
def apply_op (db : ReferralDb) : HandlerOp → ReferralDb
  | HandlerOp.mark_converted rid now =>
    update_referral db rid fun x =>
      { x with status := RefStatus.converted, first_subscription_at := some now }
  | HandlerOp.get_or_create_fraud_check rid =>
    if db.fraud_checks.any fun fc => fc.referral_id == rid then db
    else { db with fraud_checks := db.fraud_checks ++
      [{ referral_id := rid, same_ip := false, rapid_signup := false
         disposable_email := false, fraud_score := 0, status := FraudStatus.pending }] }
  | HandlerOp.update_fraud_fields rid w => update_fraud_check db rid (apply_fraud_writes w)
  | HandlerOp.get_or_create_credit rid uid now =>
    if db.credits.any fun cr => cr.referral_id == rid then db
    else { db with credits := db.credits ++
      [{ referral_id := rid, user_id := uid, amount := 10
         expires_at := now + 31536000, used := false }] }
  | HandlerOp.mark_rewarded rid =>
    update_referral db rid fun x => { x with status := RefStatus.rewarded }

/-- Fraud-check writes do not change what the rapid-signup query reads. -/
lemma signal_rapid_signup_update_fraud_check (db : ReferralDb) (rid : Nat)
    (f : FraudCheckRow → FraudCheckRow) (now : Nat) (r : ReferralRow) :
    signal_rapid_signup (update_fraud_check db rid f) now r
      = signal_rapid_signup db now r := rfl

/-- Fraud-check writes do not change what the disposable-email check reads. -/
lemma signal_disposable_email_update_fraud_check (db : ReferralDb) (rid : Nat)
    (f : FraudCheckRow → FraudCheckRow) (r : ReferralRow) :
    signal_disposable_email (update_fraud_check db rid f) r
      = signal_disposable_email db r := rfl

/-- The returned fraud score is the sum of the matched signal weights, capped at
100. -/
lemma calculate_fraud_score_eq (db : ReferralDb) (now : Nat) (r : ReferralRow) :
    (calculate_fraud_score db now r).1
      = min ((if signal_same_ip db r then 30 else 0)
          + (if signal_rapid_signup db now r then 25 else 0)
          + (if signal_disposable_email db r then 40 else 0)) 100 := by
  by_cases s1 : signal_same_ip db r <;>
    by_cases s2 : signal_rapid_signup db now r <;>
      by_cases s3 : signal_disposable_email db r <;>
        simp [calculate_fraud_score, s1, s2, s3,
          signal_rapid_signup_update_fraud_check,
          signal_disposable_email_update_fraud_check]

/-- C8: the fraud score equals the sum of the matched signal weights (+30 same-IP,
+25 rapid referrals, +40 disposable referee domain) capped at 100; hence it never
exceeds 100, and any input matching at least the same signals scores at least as
high (adding a signal never decreases the score). -/
theorem c8_fraud_score_additive_capped_monotone (db db₂ : ReferralDb)
    (now now₂ : Nat) (r r₂ : ReferralRow)
    (h1 : signal_same_ip db r = true → signal_same_ip db₂ r₂ = true)
    (h2 : signal_rapid_signup db now r = true → signal_rapid_signup db₂ now₂ r₂ = true)
    (h3 : signal_disposable_email db r = true → signal_disposable_email db₂ r₂ = true) :
    (calculate_fraud_score db now r).1
        = min ((if signal_same_ip db r then 30 else 0)
            + (if signal_rapid_signup db now r then 25 else 0)
            + (if signal_disposable_email db r then 40 else 0)) 100 ∧
    (calculate_fraud_score db now r).1 ≤ 100 ∧
    (calculate_fraud_score db now r).1 ≤ (calculate_fraud_score db₂ now₂ r₂).1 := by
  refine ⟨calculate_fraud_score_eq db now r, ?_, ?_⟩
  · rw [calculate_fraud_score_eq]
    exact Nat.min_le_right _ _
  · rw [calculate_fraud_score_eq, calculate_fraud_score_eq]
    have b1 : (if signal_same_ip db r then 30 else 0)
        ≤ (if signal_same_ip db₂ r₂ then 30 else 0) := by
      by_cases s : signal_same_ip db r
      · rw [if_pos s, if_pos (h1 s)]
      · simp [s]
    have b2 : (if signal_rapid_signup db now r then 25 else 0)
        ≤ (if signal_rapid_signup db₂ now₂ r₂ then 25 else 0) := by
      by_cases s : signal_rapid_signup db now r
      · rw [if_pos s, if_pos (h2 s)]
      · simp [s]
    have b3 : (if signal_disposable_email db r then 40 else 0)
        ≤ (if signal_disposable_email db₂ r₂ then 40 else 0) := by
      by_cases s : signal_disposable_email db r
      · rw [if_pos s, if_pos (h3 s)]
      · simp [s]
    exact min_le_min (Nat.add_le_add (Nat.add_le_add b1 b2) b3) le_rfl

/-- A referrer (user 2) with code DN-AB123, and a referee (user 3), for witnesses. -/
def refUser : UserRow := { id := 3, email := "friend@mailinator.com" }

/-- The referral row used by the referral witnesses. -/
def refRow : ReferralRow :=
  { id := 1, referrer_id := 2, referee_id := some 3, code_used := "DN-AB123"
    status := RefStatus.signed_up, ip_address := some "203.0.113.9"
    created_at := 0, first_subscription_at := none }

/-- The store used by the referral witnesses: one open referral, no fraud check, no
credit yet. -/
def refDb : ReferralDb :=
  { users := [refUser]
    codes := [{ user_id := 2, code := "DN-AB123" }]
    referrals := [refRow]
    fraud_checks := []
    credits := [] }

/-- Witness for `c8_fraud_score_additive_capped_monotone` at a concrete input: the
same store and referral on both sides. -/
theorem c8_fraud_score_additive_capped_monotone_witness :
    (calculate_fraud_score refDb 0 refRow).1
        = min ((if signal_same_ip refDb refRow then 30 else 0)
            + (if signal_rapid_signup refDb 0 refRow then 25 else 0)
            + (if signal_disposable_email refDb refRow then 40 else 0)) 100 ∧
    (calculate_fraud_score refDb 0 refRow).1 ≤ 100 ∧
    (calculate_fraud_score refDb 0 refRow).1 ≤ (calculate_fraud_score refDb 0 refRow).1 :=
  c8_fraud_score_additive_capped_monotone refDb refDb 0 0 refRow refRow
    (fun h => h) (fun h => h) (fun h => h)

/-- Appending a row whose key is not yet present keeps at most one row per key. -/
lemma count_key_append {α : Type} (l : List α) (key : α → Nat) (x : α) (rid : Nat)
    (h : (l.filter fun a => key a == rid).length ≤ 1)
    (hnew : (l.any fun a => key a == key x) = false) :
    ((l ++ [x]).filter fun a => key a == rid).length ≤ 1 := by
  rw [List.filter_append, List.length_append]
  by_cases hr : (key x == rid) = true
  · have hrr : key x = rid := beq_iff_eq.mp hr
    have h0 : (l.filter fun a => key a == rid) = [] := by
      rw [List.filter_eq_nil_iff]
      intro a ha hcon
      have hany : (l.any fun a => key a == key x) = true :=
        List.any_eq_true.mpr ⟨a, ha, by rw [hrr]; exact hcon⟩
      rw [hnew] at hany
      exact Bool.noConfusion hany
    rw [h0]
    simp [hr]
  · have : ([x].filter fun a => key a == rid) = [] := by
      simp only [List.filter, hr]
    rw [this]
    simpa using h
/-- A key-preserving rewrite of rows neither adds nor removes rows under a key
filter. -/
lemma count_key_map {α : Type} (l : List α) (key : α → Nat) (g : α → α) (rid : Nat)
    (hg : ∀ a, key (g a) = key a) :
    ((l.map g).filter fun a => key a == rid).length
      = (l.filter fun a => key a == rid).length := by
  induction l with
  | nil => rfl
  | cons a as ih =>
    simp only [List.map_cons, List.filter_cons, hg]
    by_cases ha : (key a == rid) = true <;> simp [ha, ih]

/-- One atomic handler operation preserves at-most-one credit per referral. -/
lemma credit_count_apply_op (db : ReferralDb) (op : HandlerOp) (rid : Nat)
    (h : credit_count db rid ≤ 1) : credit_count (apply_op db op) rid ≤ 1 := by
  cases op with
  | mark_converted rid' now => exact h
  | get_or_create_fraud_check rid' =>
    simp only [apply_op]
    split_ifs <;> exact h
  | update_fraud_fields rid' w => exact h
  | mark_rewarded rid' => exact h
  | get_or_create_credit rid' uid now =>
    simp only [apply_op]
    split_ifs with hex
    · exact h
    · exact count_key_append db.credits (fun cr => cr.referral_id) _ rid h
        (by simpa using hex)

/-- One atomic handler operation preserves at-most-one fraud check per referral. -/
lemma fraud_check_count_apply_op (db : ReferralDb) (op : HandlerOp) (rid : Nat)
    (h : fraud_check_count db rid ≤ 1) :
    fraud_check_count (apply_op db op) rid ≤ 1 := by
  cases op with
  | mark_converted rid' now => exact h
  | get_or_create_credit rid' uid now =>
    simp only [apply_op]
    split_ifs <;> exact h
  | mark_rewarded rid' => exact h
  | get_or_create_fraud_check rid' =>
    simp only [apply_op]
    split_ifs with hex
    · exact h
    · exact count_key_append db.fraud_checks (fun fc => fc.referral_id) _ rid h
        (by simpa using hex)
  | update_fraud_fields rid' w =>
    have heq : fraud_check_count (update_fraud_check db rid' (apply_fraud_writes w)) rid
        = fraud_check_count db rid :=
      count_key_map db.fraud_checks (fun fc => fc.referral_id)
        (fun fc => if fc.referral_id == rid' then apply_fraud_writes w fc else fc) rid
        (fun a => by
          by_cases ha : (a.referral_id == rid') = true <;>
            simp [ha, apply_fraud_writes])
    show fraud_check_count (update_fraud_check db rid' (apply_fraud_writes w)) rid ≤ 1
    rw [heq]
    exact h

/-- Fraud-check writes leave the credit table untouched. -/
lemma update_fraud_check_credits (db : ReferralDb) (rid : Nat)
    (f : FraudCheckRow → FraudCheckRow) :
    (update_fraud_check db rid f).credits = db.credits := rfl

/-- The fraud scorer only writes fraud-check flags: the credit table is untouched. -/
lemma calculate_fraud_score_credits (db : ReferralDb) (now : Nat) (r : ReferralRow) :
    (calculate_fraud_score db now r).2.credits = db.credits := by
  simp only [calculate_fraud_score]
  split_ifs <;> rfl

/-- The credit block preserves at-most-one credit per referral. -/
lemma credit_count_issue_credit_and_reward (db : ReferralDb) (now : Nat)
    (referral : ReferralRow) (st : FraudStatus) (rid : Nat)
    (h : credit_count db rid ≤ 1) :
    credit_count (issue_credit_and_reward db now referral st) rid ≤ 1 := by
  unfold issue_credit_and_reward
  split_ifs with happ hex
  · exact h
  · exact count_key_append db.credits (fun cr => cr.referral_id) _ rid h
      (by simpa using hex)
  · exact h

/-- A full sequential run of the conversion handler preserves at-most-one credit per
referral. -/
lemma credit_count_track_referral_conversion (db : ReferralDb) (now u : Nat)
    (created : Bool) (s : SubStatus) (rid : Nat)
    (h : credit_count db rid ≤ 1) :
    credit_count (track_referral_conversion db now u created s) rid ≤ 1 := by
  unfold track_referral_conversion
  split
  · split
    · exact h
    · rename_i referral hfind
      dsimp only
      split
      · rename_i fc hfc
        exact credit_count_issue_credit_and_reward _ now referral fc.status rid h
      · rename_i hfc
        apply credit_count_issue_credit_and_reward
        unfold credit_count
        rw [update_fraud_check_credits, calculate_fraud_score_credits]
        exact h
  · exact h

/-- C4: (i) any sequence of the handler's atomic store operations — hence any
interleaving of two near-simultaneous handler runs — preserves at most one
`ReferralCredit` row and at most one `ReferralFraudCheck` row per referral, because
both are get-or-create operations keyed on the one-to-one referral relation; (ii) two
full sequential runs of the subscription-activation handler likewise leave at most one
credit row per referral. -/
theorem c4_at_most_one_credit_per_referral (ops : List HandlerOp) (db db₂ : ReferralDb)
    (rid rid₂ now now₂ u : Nat)
    (hc : credit_count db rid ≤ 1) (hf : fraud_check_count db rid ≤ 1)
    (hc₂ : credit_count db₂ rid₂ ≤ 1) :
    credit_count (ops.foldl apply_op db) rid ≤ 1 ∧
    fraud_check_count (ops.foldl apply_op db) rid ≤ 1 ∧
    credit_count
      (track_referral_conversion
        (track_referral_conversion db₂ now u true SubStatus.active)
        now₂ u true SubStatus.active) rid₂ ≤ 1 := by
  refine ⟨?_, ?_, ?_⟩
  · clear hf hc₂
    induction ops generalizing db with
    | nil => exact hc
    | cons op rest ih => exact ih _ (credit_count_apply_op db op rid hc)
  · clear hc hc₂
    induction ops generalizing db with
    | nil => exact hf
    | cons op rest ih => exact ih _ (fraud_check_count_apply_op db op rid hf)
  · exact credit_count_track_referral_conversion _ now₂ u true SubStatus.active rid₂
      (credit_count_track_referral_conversion db₂ now u true SubStatus.active rid₂ hc₂)

/-- Witness for `c4_at_most_one_credit_per_referral` at a concrete input: an
interleaving in which both concurrent runs reach their get-or-create steps, and the
double sequential run on the same store. -/
theorem c4_at_most_one_credit_per_referral_witness :
    credit_count
      ([HandlerOp.mark_converted 1 0, HandlerOp.get_or_create_fraud_check 1,
        HandlerOp.get_or_create_fraud_check 1, HandlerOp.get_or_create_credit 1 2 0,
        HandlerOp.get_or_create_credit 1 2 5, HandlerOp.mark_rewarded 1].foldl
        apply_op refDb) 1 ≤ 1 ∧
    fraud_check_count
      ([HandlerOp.mark_converted 1 0, HandlerOp.get_or_create_fraud_check 1,
        HandlerOp.get_or_create_fraud_check 1, HandlerOp.get_or_create_credit 1 2 0,
        HandlerOp.get_or_create_credit 1 2 5, HandlerOp.mark_rewarded 1].foldl
        apply_op refDb) 1 ≤ 1 ∧
    credit_count
      (track_referral_conversion (track_referral_conversion refDb 0 3 true
        SubStatus.active) 5 3 true SubStatus.active) 1 ≤ 1 :=
  c4_at_most_one_credit_per_referral _ refDb refDb 1 1 0 5 3
    (by decide) (by decide) (by decide)

/-! ## Badge engine (`core/badge_checker.py`) -/

/-- A `Badge` row. `requirement_value` is a nullable integer. -/
structure Badge where
  id : Nat
  name : String
  category : String
  requirement_value : Option Int
  deriving DecidableEq, Repr

/-- A `UserBadge` row ((user, badge) unique, never updated or deleted). -/
structure UserBadge where
  user_id : Nat
  badge_id : Nat
  deriving DecidableEq, Repr

/-- A `Comment` row restricted to what the badge engine counts. -/
structure CommentRow where
  id : Nat
  user_id : Nat
  deriving DecidableEq, Repr

/-- The slice of the entity store the badge engine reads and writes. -/
structure BadgeDb where
  badges : List Badge
  user_badges : List UserBadge
  progress : List LessonProgress
  courses : List Course
  lessons : List Lesson
  comments : List CommentRow
  deriving DecidableEq, Repr

/-- The completed-lesson metric of `check_and_award_badges`. -/
def completed_lessons_count (db : BadgeDb) (uid : Nat) : Nat :=
  (db.progress.filter fun p => p.user_id == uid && p.is_completed).length

/-- One iteration of the completed-course loop: a published course with at least one
lesson, all of whose lessons the user has completed. -/
def course_fully_completed (db : BadgeDb) (uid : Nat) (c : Course) : Bool :=
  let total := (db.lessons.filter fun l => l.course_id == c.id).length
  if total == 0 then false
  else
    let completed := (db.progress.filter fun p =>
      p.user_id == uid && p.is_completed &&
        db.lessons.any fun l => l.id == p.lesson_id && l.course_id == c.id).length
    completed == total

/-- The completed-course metric. -/
def completed_courses_count (db : BadgeDb) (uid : Nat) : Nat :=
  (db.courses.filter fun c => c.is_published && course_fully_completed db uid c).length

/-- The comment metric. -/
def comment_count (db : BadgeDb) (uid : Nat) : Nat :=
  (db.comments.filter fun cm => cm.user_id == uid).length

/-- `Course.objects.filter(is_published=True).count()`. -/
def total_published_courses (db : BadgeDb) : Nat :=
  (db.courses.filter fun c => c.is_published).length

/-- `award_badge` (`core/badge_checker.py`): get-or-create on (user, badge); the
boolean is True exactly when the row was newly created. -/
def award_badge (user_badges : List UserBadge) (uid bid : Nat) :
    Bool × List UserBadge :=
  if user_badges.any fun x => x.user_id == uid && x.badge_id == bid then
    (false, user_badges)
  else (true, user_badges ++ [{ user_id := uid, badge_id := bid }])

/-- One iteration of the awarding loops: award, and report the badge as newly awarded
only when the row was newly created. -/
def award_step (uid : Nat) (acc : List Badge × List UserBadge) (b : Badge) :
    List Badge × List UserBadge :=
  let r := award_badge acc.2 uid b.id
  (if r.1 then acc.1 ++ [b] else acc.1, r.2)

/-- One of the two single-badge blocks (Course Complete / Completionist): when the
metric condition holds and the badge exists, run one awarding step. -/
def award_single_if (uid : Nat) (cond : Bool) (fb : Option Badge)
    (acc : List Badge × List UserBadge) : List Badge × List UserBadge :=
  if cond then
    match fb with
    | some b => award_step uid acc b
    | none => acc
  else acc

/-- `check_and_award_badges` (`core/badge_checker.py`): starter badges by completed
lessons, the Course Complete badge, the Completionist badge, then engagement badges by
comment count. Returns the newly-awarded list and the `UserBadge` table afterwards.
A null `requirement_value` never matches the SQL `lte` filter. -/
def check_and_award_badges (db : BadgeDb) (uid : Nat) :
    List Badge × List UserBadge :=
  let clc := completed_lessons_count db uid
  let lesson_badges := db.badges.filter fun b =>
    b.category == "starter" &&
      (match b.requirement_value with
       | some v => decide (v ≤ (clc : Int))
       | none => false)
  let acc1 := lesson_badges.foldl (award_step uid) ([], db.user_badges)
  let ccc := completed_courses_count db uid
  let acc2 := award_single_if uid (decide (0 < ccc))
    (db.badges.find? fun b => b.name == "Course Complete") acc1
  let tpc := total_published_courses db
  let acc3 := award_single_if uid (decide (0 < tpc) && decide (tpc ≤ ccc))
    (db.badges.find? fun b => b.name == "Completionist") acc2
  let cc := comment_count db uid
  let comment_badges := db.badges.filter fun b =>
    b.category == "engagement" &&
      (match b.requirement_value with
       | some v => decide (v ≤ (cc : Int))
       | none => false)
  comment_badges.foldl (award_step uid) acc3

/-- An awarding step never removes a `UserBadge` row. -/
lemma mem_award_step (uid : Nat) (acc : List Badge × List UserBadge) (b : Badge)
    (x : UserBadge) (hx : x ∈ acc.2) : x ∈ (award_step uid acc b).2 := by
  unfold award_step award_badge
  by_cases hc : (acc.2.any fun y => y.user_id == uid && y.badge_id == b.id) = true
  · simpa [hc] using hx
  · simp [hc, hx]

/-- An awarding loop never removes a `UserBadge` row. -/
lemma mem_award_foldl (uid : Nat) (bs : List Badge)
    (acc : List Badge × List UserBadge) (x : UserBadge) (hx : x ∈ acc.2) :
    x ∈ (bs.foldl (award_step uid) acc).2 := by
  induction bs generalizing acc with
  | nil => exact hx
  | cons b rest ih => exact ih _ (mem_award_step uid acc b x hx)

/-- A single-badge block never removes a `UserBadge` row. -/
lemma mem_award_single_if (uid : Nat) (cond : Bool) (fb : Option Badge)
    (acc : List Badge × List UserBadge) (x : UserBadge) (hx : x ∈ acc.2) :
    x ∈ (award_single_if uid cond fb acc).2 := by
  unfold award_single_if
  split_ifs
  · cases fb with
    | some b => exact mem_award_step uid acc b x hx
    | none => exact hx
  · exact hx

/-- After an awarding step, the row for the processed badge is present. -/
lemma self_mem_award_step (uid : Nat) (acc : List Badge × List UserBadge) (b : Badge) :
    ({ user_id := uid, badge_id := b.id } : UserBadge) ∈ (award_step uid acc b).2 := by
  unfold award_step award_badge
  by_cases hc : (acc.2.any fun y => y.user_id == uid && y.badge_id == b.id) = true
  · simp only [hc, if_true]
    rcases List.any_eq_true.mp hc with ⟨y, hy, hpy⟩
    simp only [Bool.and_eq_true, beq_iff_eq] at hpy
    have hxy : y = { user_id := uid, badge_id := b.id } := by
      cases y with
      | mk yu yb => simp_all
    rw [hxy] at hy
    simpa using hy
  · simp [hc]

/-- After an awarding loop, every processed badge has its row present. -/
lemma covers_award_foldl (uid : Nat) (bs : List Badge)
    (acc : List Badge × List UserBadge) (b : Badge) (hb : b ∈ bs) :
    ({ user_id := uid, badge_id := b.id } : UserBadge)
      ∈ (bs.foldl (award_step uid) acc).2 := by
  induction bs generalizing acc with
  | nil => cases hb
  | cons hd rest ih =>
    rcases List.mem_cons.mp hb with rfl | hmem
    · exact mem_award_foldl uid rest _ _ (self_mem_award_step uid acc b)
    · exact ih _ hmem

/-- After a taken single-badge block, the processed badge has its row present. -/
lemma self_mem_award_single_if (uid : Nat) (cond : Bool) (fb : Option Badge)
    (acc : List Badge × List UserBadge) (b : Badge) (hc : cond = true)
    (hfb : fb = some b) :
    ({ user_id := uid, badge_id := b.id } : UserBadge)
      ∈ (award_single_if uid cond fb acc).2 := by
  unfold award_single_if
  rw [if_pos hc, hfb]
  exact self_mem_award_step uid acc b

/-- An awarding step against an already-present row changes nothing and reports
nothing new. -/
lemma award_step_no_change (uid : Nat) (acc : List Badge × List UserBadge) (b : Badge)
    (hb : ({ user_id := uid, badge_id := b.id } : UserBadge) ∈ acc.2) :
    award_step uid acc b = acc := by
  unfold award_step award_badge
  have hc : (acc.2.any fun y => y.user_id == uid && y.badge_id == b.id) = true :=
    List.any_eq_true.mpr ⟨{ user_id := uid, badge_id := b.id }, hb, by simp⟩
  simp [hc]

/-- An awarding loop over badges whose rows all exist changes nothing. -/
lemma award_foldl_no_change (uid : Nat) (bs : List Badge)
    (acc : List Badge × List UserBadge)
    (h : ∀ b ∈ bs, ({ user_id := uid, badge_id := b.id } : UserBadge) ∈ acc.2) :
    bs.foldl (award_step uid) acc = acc := by
  induction bs with
  | nil => rfl
  | cons b rest ih =>
    rw [List.foldl_cons, award_step_no_change uid acc b (h b (by simp))]
    exact ih fun b' hb' => h b' (by simp [hb'])

/-- A single-badge block whose badge's row already exists changes nothing. -/
lemma award_single_if_no_change (uid : Nat) (cond : Bool) (fb : Option Badge)
    (acc : List Badge × List UserBadge)
    (h : ∀ b, cond = true → fb = some b →
      ({ user_id := uid, badge_id := b.id } : UserBadge) ∈ acc.2) :
    award_single_if uid cond fb acc = acc := by
  unfold award_single_if
  split_ifs with hc
  · cases fb with
    | some b => exact award_step_no_change uid acc b (h b hc rfl)
    | none => rfl
  · rfl

/-- Re-running the four-stage awarding pipeline on its own output table reports
nothing newly awarded. -/
lemma pipeline_idempotent (uid : Nat) (L1 : List Badge) (c1 : Bool)
    (f1 : Option Badge) (c2 : Bool) (f2 : Option Badge) (L2 : List Badge)
    (ub : List UserBadge) :
    (L2.foldl (award_step uid)
      (award_single_if uid c2 f2 (award_single_if uid c1 f1
        (L1.foldl (award_step uid)
          (([] : List Badge),
            (L2.foldl (award_step uid)
              (award_single_if uid c2 f2 (award_single_if uid c1 f1
                (L1.foldl (award_step uid) (([] : List Badge), ub))))).2))))).1
      = [] := by
  set ub1 := (L2.foldl (award_step uid)
    (award_single_if uid c2 f2 (award_single_if uid c1 f1
      (L1.foldl (award_step uid) (([] : List Badge), ub))))).2 with hub1
  have cov1 : ∀ b ∈ L1, ({ user_id := uid, badge_id := b.id } : UserBadge) ∈ ub1 :=
    fun b hb => mem_award_foldl uid L2 _ _ (mem_award_single_if uid c2 f2 _ _
      (mem_award_single_if uid c1 f1 _ _ (covers_award_foldl uid L1 _ b hb)))
  have covf1 : ∀ b, c1 = true → f1 = some b →
      ({ user_id := uid, badge_id := b.id } : UserBadge) ∈ ub1 :=
    fun b hc hf => mem_award_foldl uid L2 _ _ (mem_award_single_if uid c2 f2 _ _
      (self_mem_award_single_if uid c1 f1 _ b hc hf))
  have covf2 : ∀ b, c2 = true → f2 = some b →
      ({ user_id := uid, badge_id := b.id } : UserBadge) ∈ ub1 :=
    fun b hc hf => mem_award_foldl uid L2 _ _
      (self_mem_award_single_if uid c2 f2 _ b hc hf)
  have cov2 : ∀ b ∈ L2, ({ user_id := uid, badge_id := b.id } : UserBadge) ∈ ub1 :=
    fun b hb => covers_award_foldl uid L2 _ b hb
  rw [award_foldl_no_change uid L1 (([] : List Badge), ub1) fun b hb => cov1 b hb,
    award_single_if_no_change uid c1 f1 (([] : List Badge), ub1)
      fun b hc hf => covf1 b hc hf,
    award_single_if_no_change uid c2 f2 (([] : List Badge), ub1)
      fun b hc hf => covf2 b hc hf,
    award_foldl_no_change uid L2 (([] : List Badge), ub1) fun b hb => cov2 b hb]

/-- C7: the badge engine is monotonic — no `UserBadge` row is ever revoked by a run —
and idempotent: a second run on the resulting table, with every metric unchanged,
reports an empty newly-awarded list. -/
theorem c7_badges_monotonic_and_idempotent (db : BadgeDb) (uid : Nat) :
    (∀ x ∈ db.user_badges, x ∈ (check_and_award_badges db uid).2) ∧
    (check_and_award_badges
      { db with user_badges := (check_and_award_badges db uid).2 } uid).1 = [] := by
  have hbadges : ∀ ub : List UserBadge,
      ({ db with user_badges := ub } : BadgeDb).badges = db.badges := fun _ => rfl
  have hclc : ∀ ub : List UserBadge,
      completed_lessons_count { db with user_badges := ub } uid
        = completed_lessons_count db uid := fun _ => rfl
  have hccc : ∀ ub : List UserBadge,
      completed_courses_count { db with user_badges := ub } uid
        = completed_courses_count db uid := fun _ => rfl
  have hcc : ∀ ub : List UserBadge,
      comment_count { db with user_badges := ub } uid
        = comment_count db uid := fun _ => rfl
  have htpc : ∀ ub : List UserBadge,
      total_published_courses { db with user_badges := ub }
        = total_published_courses db := fun _ => rfl
  have hubp : ∀ ub : List UserBadge,
      ({ db with user_badges := ub } : BadgeDb).user_badges = ub := fun _ => rfl
  constructor
  · intro x hx
    simp only [check_and_award_badges]
    exact mem_award_foldl _ _ _ _ (mem_award_single_if _ _ _ _ _
      (mem_award_single_if _ _ _ _ _ (mem_award_foldl _ _ _ _ hx)))
  · simp only [check_and_award_badges, hbadges, hclc, hccc, hcc, htpc, hubp]
    exact pipeline_idempotent uid _ _ _ _ _ _ db.user_badges

end Dieselnoi
